import Mathlib

/-!
Shallow embedding of the interval-timer state machine from
`src/stores/timer-store.ts`, the scheduler callback dispatch from
`src/hooks/use-timer-engine.ts`, and the persistence `merge` gate, together
with theorems settling the frozen claims about them.

JavaScript numbers holding integer values are modelled as `Int` (the code
only ever adds, subtracts, compares and clamps whole seconds and indices;
`currentPhaseIndex` uses the sentinel value `-1`).  Array indexing
`phases[i]` is modelled by `listGetI`, returning `none` where JavaScript
yields `undefined`; the one place the code reads `.durationSec` straight
off an indexed element (`durAt`) defaults to `0` for an out-of-range index,
which in JavaScript would be a TypeError — every theorem below only
exercises in-range accesses, matching the states the app can be in.
-/

namespace IntervalTimer

/-- Phase kind, from `PhaseTypeSchema` in `src/schemas/timer.ts`:
`work` or `rest` (the prepare phase is not a `Phase`). -/
inductive PhaseType where
  | work : PhaseType
  | rest : PhaseType
deriving DecidableEq, Repr

/-- One phase of a round, from `PhaseSchema` in `src/schemas/timer.ts`. -/
structure Phase where
  id : String
  type : PhaseType
  label : String
  durationSec : Int
  color : String
deriving DecidableEq, Repr

/-- Workout preset, from `PresetSchema` in `src/schemas/timer.ts`. -/
structure Preset where
  id : String
  name : String
  totalRounds : Int
  prepareSec : Int
  phases : List Phase
  createdAt : Int
deriving DecidableEq, Repr

/-- Timer status, from `TimerStatusSchema` in `src/stores/timer-store.ts`. -/
inductive TimerStatus where
  | idle : TimerStatus
  | running : TimerStatus
  | paused : TimerStatus
  | completed : TimerStatus
deriving DecidableEq, Repr

/-- Upper bound on the round count, `MAX_TOTAL_ROUNDS` in
`src/schemas/timer.ts`. -/
def MAX_TOTAL_ROUNDS : Int := 99

/-- Lower bound on a phase duration, `MIN_PHASE_DURATION_SEC` in
`src/schemas/timer.ts`. -/
def MIN_PHASE_DURATION_SEC : Int := 5

/-- Upper bound on a phase duration, `MAX_PHASE_DURATION_SEC` in
`src/schemas/timer.ts`. -/
def MAX_PHASE_DURATION_SEC : Int := 300

/-- The persisted/live state fields of the timer store
(`TimerStoreState` in `src/stores/timer-store.ts`). -/
structure TimerStoreState where
  status : TimerStatus
  currentPhaseIndex : Int
  currentRound : Int
  remainingSec : Int
  presetId : Option String
  phases : List Phase
  totalRounds : Int
  prepareSec : Int
  isPreparingPhase : Bool
deriving DecidableEq, Repr

/-- The `TickSnapshot` slice of the state
(`type TickSnapshot = Pick<TimerStoreState, ...>` in the source). -/
structure TickSnapshot where
  remainingSec : Int
  currentPhaseIndex : Int
  currentRound : Int
  isPreparingPhase : Bool
  phases : List Phase
  totalRounds : Int
  prepareSec : Int
deriving DecidableEq, Repr

/-- JavaScript array indexing `l[i]` for a (possibly negative) integer
index: `none` models `undefined`. -/
def listGetI (l : List Phase) (i : Int) : Option Phase :=
  if i < 0 then none else l.get? i.toNat

/-- Reads `l[i].durationSec`.  An out-of-range access is a TypeError in
JavaScript; it is mapped to `0` here and never reached by the theorems. -/
def durAt (l : List Phase) (i : Int) : Int :=
  match listGetI l i with
  | some p => p.durationSec
  | none => 0

/-- Pure one-second transition `computeNextTickState` from
`src/stores/timer-store.ts`: `none` models the `null` "completed" signal. -/
def computeNextTickState (s : TickSnapshot) : Option TickSnapshot :=
  let nextRemaining := s.remainingSec - 1
  if nextRemaining > 0 then
    some { s with remainingSec := nextRemaining }
  else if s.isPreparingPhase then
    some { s with isPreparingPhase := false, currentPhaseIndex := 0,
                  remainingSec := durAt s.phases 0 }
  else if s.currentPhaseIndex ≥ (s.phases.length : Int) - 1 ∧
          s.currentRound ≥ s.totalRounds then
    none
  else if s.currentPhaseIndex ≥ (s.phases.length : Int) - 1 then
    some { s with currentRound := s.currentRound + 1, currentPhaseIndex := 0,
                  remainingSec := durAt s.phases 0 }
  else
    some { s with currentPhaseIndex := s.currentPhaseIndex + 1,
                  remainingSec := durAt s.phases (s.currentPhaseIndex + 1) }

/-- Projects the live state onto its `TickSnapshot` fields, as the `tick`
action does before calling `computeNextTickState`. -/
def snapshotOf (st : TimerStoreState) : TickSnapshot :=
  { remainingSec := st.remainingSec
    currentPhaseIndex := st.currentPhaseIndex
    currentRound := st.currentRound
    isPreparingPhase := st.isPreparingPhase
    phases := st.phases
    totalRounds := st.totalRounds
    prepareSec := st.prepareSec }

/-- Zustand `set(next)` for a `TickSnapshot` value: merges the seven
snapshot fields into the live state, leaving `status` and `presetId`. -/
def applySnapshot (st : TimerStoreState) (s : TickSnapshot) : TimerStoreState :=
  { st with
    remainingSec := s.remainingSec
    currentPhaseIndex := s.currentPhaseIndex
    currentRound := s.currentRound
    isPreparingPhase := s.isPreparingPhase
    phases := s.phases
    totalRounds := s.totalRounds
    prepareSec := s.prepareSec }

/-- The `INITIAL_STATE` idle sentinel from `src/stores/timer-store.ts`. -/
def INITIAL_STATE : TimerStoreState :=
  { status := TimerStatus.idle
    currentPhaseIndex := 0
    currentRound := 1
    remainingSec := 0
    presetId := none
    phases := []
    totalRounds := 1
    prepareSec := 0
    isPreparingPhase := false }

/-- The `start` action: copies the preset into the live state and enters
either the prepare occupancy or phase 0 of round 1. -/
def start (preset : Preset) : TimerStoreState :=
  let hasPrepare : Bool := preset.prepareSec > 0
  { status := TimerStatus.running
    presetId := some preset.id
    phases := preset.phases
    totalRounds := preset.totalRounds
    prepareSec := preset.prepareSec
    isPreparingPhase := hasPrepare
    currentPhaseIndex := if hasPrepare then -1 else 0
    currentRound := 1
    remainingSec := if hasPrepare then preset.prepareSec else durAt preset.phases 0 }

/-- The `pause` action: `set({ status: "paused" })`. -/
def pause (st : TimerStoreState) : TimerStoreState :=
  { st with status := TimerStatus.paused }

/-- The `resume` action: `set({ status: "running" })`. -/
def resume (st : TimerStoreState) : TimerStoreState :=
  { st with status := TimerStatus.running }

/-- The `reset` action: `set(INITIAL_STATE)`. -/
def reset (_st : TimerStoreState) : TimerStoreState :=
  INITIAL_STATE

/-- The `tick` action: applies `computeNextTickState` to the live
snapshot, or marks completion on the `null` signal. -/
def tick (st : TimerStoreState) : TimerStoreState :=
  match computeNextTickState (snapshotOf st) with
  | some next => applySnapshot st next
  | none => { st with status := TimerStatus.completed, remainingSec := 0 }

/-- The `updateTotalRounds` action: a no-op outside running/paused,
otherwise `totalRounds := Math.max(currentRound, Math.min(n, 99))`. -/
def updateTotalRounds (st : TimerStoreState) (newTotalRounds : Int) : TimerStoreState :=
  if st.status ≠ TimerStatus.running ∧ st.status ≠ TimerStatus.paused then st
  else { st with totalRounds := max st.currentRound (min newTotalRounds MAX_TOTAL_ROUNDS) }

/-- The duration clamp
`Math.max(MIN_PHASE_DURATION_SEC, Math.min(newDurationSec, MAX_PHASE_DURATION_SEC))`
from `updatePhaseDuration`. -/
def clampDuration (newDurationSec : Int) : Int :=
  max MIN_PHASE_DURATION_SEC (min newDurationSec MAX_PHASE_DURATION_SEC)

/-- The `updatePhaseDuration` action: a no-op outside running/paused;
otherwise clamps the new duration to [5, 300], rewrites every phase of the
given type, and if the currently occupied (non-prepare) phase has that
type, shifts `remainingSec` by the duration delta, clamped to [0, new]. -/
def updatePhaseDuration (st : TimerStoreState) (phaseType : PhaseType)
    (newDurationSec : Int) : TimerStoreState :=
  if st.status ≠ TimerStatus.running ∧ st.status ≠ TimerStatus.paused then st
  else
    let clamped := clampDuration newDurationSec
    let updatedPhases := st.phases.map fun p =>
      if p.type = phaseType then { p with durationSec := clamped } else p
    let currentPhase : Option Phase :=
      if st.isPreparingPhase then none else listGetI st.phases st.currentPhaseIndex
    match currentPhase with
    | some cp =>
        if cp.type = phaseType then
          { st with phases := updatedPhases,
                    remainingSec := max 0 (min (st.remainingSec + (clamped - cp.durationSec)) clamped) }
        else { st with phases := updatedPhases }
    | none => { st with phases := updatedPhases }

/-- The body of the `for` loop in `syncFromElapsed`, with `k` iterations
left: advances the snapshot one pure tick at a time; on the `null` signal
it merges only `status`/`remainingSec` into the untouched live state, and
after a full run it merges the final snapshot into the live state. -/
def replayLoop (st : TimerStoreState) : TickSnapshot → Nat → TimerStoreState
  | s, 0 => applySnapshot st s
  | s, k + 1 =>
    match computeNextTickState s with
    | none => { st with status := TimerStatus.completed, remainingSec := 0 }
    | some s2 => replayLoop st s2 k

/-- The `syncFromElapsed` action: returns immediately when
`elapsedSec <= 0`, else replays the passed snapshot `elapsedSec` times. -/
def syncFromElapsed (st : TimerStoreState) (snapshot : TickSnapshot)
    (elapsedSec : Int) : TimerStoreState :=
  if elapsedSec ≤ 0 then st else replayLoop st snapshot elapsedSec.toNat

/-- Pure n-fold iteration of `computeNextTickState`, `none` as soon as the
completion signal appears. -/
def iterTick : TickSnapshot → Nat → Option TickSnapshot
  | s, 0 => some s
  | s, k + 1 =>
    match computeNextTickState s with
    | none => none
    | some s2 => iterTick s2 k

/-- Which scheduler callback a tick fired (`onPhaseChange`/`onComplete`
in `use-timer-engine.ts`). -/
inductive TickEvent where
  | phaseChange : TickEvent
  | complete : TickEvent
deriving DecidableEq, Repr

/-- The `executeTickWithCallbacks` wrapper from
`src/hooks/use-timer-engine.ts`: runs `tick` and reports which callback
fires, comparing `(currentPhaseIndex, status)` before and after, with the
completion test taken first. -/
def executeTickWithCallbacks (st : TimerStoreState) : TimerStoreState × Option TickEvent :=
  let next := tick st
  if next.status = TimerStatus.completed ∧ st.status ≠ TimerStatus.completed then
    (next, some TickEvent.complete)
  else if next.currentPhaseIndex ≠ st.currentPhaseIndex then
    (next, some TickEvent.phaseChange)
  else
    (next, none)

/-- The foreground-resume branch of `handleVisibilityChange` in
`src/hooks/use-timer-engine.ts`: it calls `syncFromElapsed` directly,
bypassing `executeTickWithCallbacks`, so no callback can fire; the second
component records the callback fired, `none` by construction of the code
path. -/
def resumeCorrection (st : TimerStoreState) (snap : TickSnapshot)
    (elapsedSec : Int) : TimerStoreState × Option TickEvent :=
  (syncFromElapsed st snap elapsedSec, none)

/-! ### Persistence gate

The `persist` middleware restores a value from localStorage and runs it
through the store's `merge` callback, which validates it with
`TimerStoreSchema.safeParse` and falls back to the current state on
failure.  The raw persisted value is modelled as a record with the
state's shape over unconstrained integers: wrong-typed or missing JSON
fields (which zod also rejects) live outside this model, while the
schema's numeric range refinements — the part the claims exercise — are
checked by `persistedValid`. -/

/-- A persisted snapshot candidate, field for field the shape checked by
`TimerStoreSchema`, with the numeric refinements not yet enforced. -/
structure PersistedValue where
  status : TimerStatus
  currentPhaseIndex : Int
  currentRound : Int
  remainingSec : Int
  presetId : Option String
  phases : List Phase
  totalRounds : Int
  prepareSec : Int
  isPreparingPhase : Bool
deriving DecidableEq, Repr

/-- The numeric refinements of `TimerStoreSchema`: currentRound positive,
remainingSec nonnegative, totalRounds positive, prepareSec nonnegative,
and every phase's durationSec positive (via `PhaseSchema`).  Note the
schema puts no lower bound on the length of `phases` and no range on
`currentPhaseIndex` beyond being an integer. -/
def persistedValid (p : PersistedValue) : Bool :=
  (0 < p.currentRound) && (0 ≤ p.remainingSec) && (0 < p.totalRounds) &&
  (0 ≤ p.prepareSec) && p.phases.all fun ph => 0 < ph.durationSec

/-- Reads a validated persisted value as a state, field by field. -/
def toState (p : PersistedValue) : TimerStoreState :=
  { status := p.status
    currentPhaseIndex := p.currentPhaseIndex
    currentRound := p.currentRound
    remainingSec := p.remainingSec
    presetId := p.presetId
    phases := p.phases
    totalRounds := p.totalRounds
    prepareSec := p.prepareSec
    isPreparingPhase := p.isPreparingPhase }

/-- `TimerStoreSchema.safeParse`: `some` of the parsed state on success,
`none` on a refinement failure. -/
def safeParse (p : PersistedValue) : Option TimerStoreState :=
  if persistedValid p then some (toState p) else none

/-- The `merge` callback of the `persist` middleware: on parse failure the
current state is returned untouched; on success the parsed data replaces
every field, with `status: "running"` forced to `"paused"`. -/
def merge (persisted : PersistedValue) (current : TimerStoreState) : TimerStoreState :=
  match safeParse persisted with
  | none => current
  | some data =>
      { data with
        status := if data.status = TimerStatus.running then TimerStatus.paused else data.status }

/-! ### Concrete states used by witnesses and counterexamples -/

/-- A work phase of the given duration, shaped like the app's data. -/
def workPhase (d : Int) : Phase :=
  { id := "w", type := PhaseType.work, label := "WORK", durationSec := d, color := "#ff0000" }

/-- A rest phase of the given duration, shaped like the app's data. -/
def restPhase (d : Int) : Phase :=
  { id := "r", type := PhaseType.rest, label := "REST", durationSec := d, color := "#00ff00" }

/-- A running Tabata-shaped live state, mid-way through its first work
phase. -/
def exC1st : TimerStoreState :=
  { status := TimerStatus.running, currentPhaseIndex := 0, currentRound := 1,
    remainingSec := 7, presetId := some "p1",
    phases := [workPhase 20, restPhase 10], totalRounds := 8, prepareSec := 10,
    isPreparingPhase := false }

/-- A snapshot that disagrees with the live state exC1st (as after some
ticks were delivered while the tab was hidden). -/
def exC1snap : TickSnapshot :=
  { remainingSec := 3, currentPhaseIndex := 1, currentRound := 2,
    isPreparingPhase := false, phases := [workPhase 20, restPhase 10],
    totalRounds := 8, prepareSec := 10 }

/-- A small running state for the C1 witness. -/
def exC1Wst : TimerStoreState :=
  { status := TimerStatus.running, currentPhaseIndex := 0, currentRound := 1,
    remainingSec := 2, presetId := some "p1w",
    phases := [workPhase 5, restPhase 5], totalRounds := 2, prepareSec := 0,
    isPreparingPhase := false }

/-- A persisted running snapshot for the C2 witness. -/
def exC2p : PersistedValue :=
  { status := TimerStatus.running, currentPhaseIndex := 1, currentRound := 2,
    remainingSec := 9, presetId := some "p2",
    phases := [workPhase 20, restPhase 10], totalRounds := 8, prepareSec := 10,
    isPreparingPhase := false }

/-- A persisted snapshot with an empty phase list and in-range numbers. -/
def exC3p : PersistedValue :=
  { status := TimerStatus.paused, currentPhaseIndex := 0, currentRound := 1,
    remainingSec := 0, presetId := none,
    phases := [], totalRounds := 7, prepareSec := 0,
    isPreparingPhase := false }

/-- A persisted snapshot with an out-of-range field (negative
remainingSec). -/
def exC3bad : PersistedValue :=
  { status := TimerStatus.paused, currentPhaseIndex := 0, currentRound := 1,
    remainingSec := -4, presetId := some "p3",
    phases := [workPhase 20], totalRounds := 3, prepareSec := 0,
    isPreparingPhase := false }

/-- A current state distinguishable from the restored snapshots above. -/
def exC3cur : TimerStoreState :=
  { status := TimerStatus.idle, currentPhaseIndex := 0, currentRound := 1,
    remainingSec := 0, presetId := none, phases := [], totalRounds := 1,
    prepareSec := 0, isPreparingPhase := false }

/-- A paused state inside a work phase, for the C4 witness. -/
def exC4st : TimerStoreState :=
  { status := TimerStatus.paused, currentPhaseIndex := 0, currentRound := 1,
    remainingSec := 12, presetId := some "p4",
    phases := [workPhase 20, restPhase 10], totalRounds := 8, prepareSec := 10,
    isPreparingPhase := false }

/-- A running state whose currentRound exceeds 99, reachable by starting a
preset with totalRounds = 150 (the preset schema puts no upper bound on
totalRounds) and ticking through 149 round boundaries. -/
def exC5st : TimerStoreState :=
  { status := TimerStatus.running, currentPhaseIndex := 0, currentRound := 150,
    remainingSec := 5, presetId := some "p5",
    phases := [workPhase 20], totalRounds := 150, prepareSec := 0,
    isPreparingPhase := false }

/-- A running state for the C5 witness. -/
def exC5Wst : TimerStoreState :=
  { status := TimerStatus.running, currentPhaseIndex := 0, currentRound := 3,
    remainingSec := 5, presetId := some "p5w",
    phases := [workPhase 20], totalRounds := 8, prepareSec := 0,
    isPreparingPhase := false }

/-- The spec's regression preset: two 5-second phases, two rounds,
three seconds of preparation. -/
def exC6 : Preset :=
  { id := "p6", name := "two-round", totalRounds := 2, prepareSec := 3,
    phases := [workPhase 5, restPhase 5], createdAt := 0 }

/-- A running state one second before completing its last phase of its
last round. -/
def exC8 : TimerStoreState :=
  { status := TimerStatus.running, currentPhaseIndex := 1, currentRound := 3,
    remainingSec := 1, presetId := some "p8",
    phases := [workPhase 20, restPhase 10], totalRounds := 3, prepareSec := 0,
    isPreparingPhase := false }

/-- A live state for the C10 witness. -/
def exC10st : TimerStoreState :=
  { status := TimerStatus.running, currentPhaseIndex := 0, currentRound := 1,
    remainingSec := 12, presetId := some "p10",
    phases := [workPhase 20], totalRounds := 3, prepareSec := 0,
    isPreparingPhase := false }

/-- A snapshot that disagrees with the live state exC10st. -/
def exC10snap : TickSnapshot :=
  { remainingSec := 4, currentPhaseIndex := 0, currentRound := 2,
    isPreparingPhase := false, phases := [workPhase 20], totalRounds := 3,
    prepareSec := 0 }

/-! ### Helper lemmas about the pure transition -/

lemma snapshotOf_applySnapshot (st : TimerStoreState) (s : TickSnapshot) :
    snapshotOf (applySnapshot st s) = s := rfl

lemma computeNext_eq_none_iff (s : TickSnapshot) :
    computeNextTickState s = none ↔
      ¬ s.remainingSec - 1 > 0 ∧ s.isPreparingPhase = false ∧
      s.currentPhaseIndex ≥ (s.phases.length : Int) - 1 ∧
      s.currentRound ≥ s.totalRounds := by
  simp only [computeNextTickState]
  split_ifs with h1 h2 h3 h4 <;> simp_all

lemma computeNext_not_preparing (s s2 : TickSnapshot)
    (hs : s.isPreparingPhase = false)
    (h : computeNextTickState s = some s2) : s2.isPreparingPhase = false := by
  simp only [computeNextTickState] at h
  split_ifs at h with h1 h2 h3 h4 <;>
    (simp only [Option.some.injEq] at h; subst h; simp [hs])

lemma tick_not_preparing (st : TimerStoreState)
    (hs : st.isPreparingPhase = false) : (tick st).isPreparingPhase = false := by
  cases h : computeNextTickState (snapshotOf st) with
  | none => simp [tick, h]; exact hs
  | some s2 =>
      have h2 := computeNext_not_preparing (snapshotOf st) s2 hs h
      simp [tick, h, applySnapshot]
      exact h2

lemma replayLoop_not_preparing (st : TimerStoreState)
    (hst : st.isPreparingPhase = false) :
    ∀ (k : Nat) (s : TickSnapshot), s.isPreparingPhase = false →
      (replayLoop st s k).isPreparingPhase = false := by
  intro k
  induction k with
  | zero => intro s hs; simpa [replayLoop, applySnapshot] using hs
  | succ k ih =>
      intro s hs
      unfold replayLoop
      cases h : computeNextTickState s with
      | none => simpa using hst
      | some s2 => exact ih s2 (computeNext_not_preparing s s2 hs h)

lemma replayLoop_eq_iterTick (st : TimerStoreState) :
    ∀ (k : Nat) (s : TickSnapshot),
      replayLoop st s k =
        match iterTick s k with
        | some s2 => applySnapshot st s2
        | none => { st with status := TimerStatus.completed, remainingSec := 0 } := by
  intro k
  induction k with
  | zero => intro s; rfl
  | succ k ih =>
      intro s
      unfold replayLoop iterTick
      cases computeNextTickState s with
      | none => rfl
      | some s2 => exact ih s2

lemma tick_applySnapshot (st : TimerStoreState) (s s2 : TickSnapshot)
    (h : computeNextTickState s = some s2) :
    tick (applySnapshot st s) = applySnapshot st s2 := by
  unfold tick
  rw [snapshotOf_applySnapshot, h]
  rfl

lemma iterate_tick_applySnapshot (st : TimerStoreState) :
    ∀ (k : Nat) (s s2 : TickSnapshot), iterTick s k = some s2 →
      Nat.iterate tick k (applySnapshot st s) = applySnapshot st s2 := by
  intro k
  induction k with
  | zero =>
      intro s s2 h
      simp only [iterTick, Option.some.injEq] at h
      subst h
      rfl
  | succ k ih =>
      intro s s2 h
      unfold iterTick at h
      cases hc : computeNextTickState s with
      | none => rw [hc] at h; exact absurd h (by simp)
      | some s1 =>
          rw [hc] at h
          rw [Function.iterate_succ_apply, tick_applySnapshot st s s1 hc]
          exact ih s1 s2 h

lemma get?_map_phase (f : Phase → Phase) :
    ∀ (l : List Phase) (i : Nat), (l.map f).get? i = (l.get? i).map f
  | [], _ => rfl
  | _ :: _, 0 => rfl
  | _ :: t, i + 1 => get?_map_phase f t i

lemma updatePhaseDuration_active (st : TimerStoreState) (pt : PhaseType)
    (nd : Int) (h : st.status = TimerStatus.running ∨ st.status = TimerStatus.paused) :
    updatePhaseDuration st pt nd =
      { st with
        phases := st.phases.map fun p =>
          if p.type = pt then { p with durationSec := clampDuration nd } else p,
        remainingSec :=
          match (if st.isPreparingPhase then none
                 else listGetI st.phases st.currentPhaseIndex) with
          | some cp =>
              if cp.type = pt
              then max 0 (min (st.remainingSec + (clampDuration nd - cp.durationSec)) (clampDuration nd))
              else st.remainingSec
          | none => st.remainingSec } := by
  have hg : ¬ (st.status ≠ TimerStatus.running ∧ st.status ≠ TimerStatus.paused) := by
    tauto
  simp only [updatePhaseDuration, if_neg hg]
  cases hcp : (if st.isPreparingPhase then none
               else listGetI st.phases st.currentPhaseIndex) with
  | none => rfl
  | some cp =>
      by_cases ht : cp.type = pt
      · simp only [if_pos ht]
      · simp only [if_neg ht]

/-! ### Claim C6 -/

/-- C6: for every preset with prepareSec > 0, `start` enters the prepare
occupancy (isPreparingPhase true, currentPhaseIndex -1,
remainingSec = prepareSec) in round 1; and the prepare flag, once false,
stays false under any number of ticks and under any replay whose live
state and snapshot are past the prepare phase — so the prepare phase never
recurs at a later round boundary. -/
theorem prepare_once_per_start (p : Preset) (hp : 0 < p.prepareSec) :
    ((start p).isPreparingPhase = true ∧
     (start p).currentPhaseIndex = -1 ∧
     (start p).remainingSec = p.prepareSec ∧
     (start p).currentRound = 1 ∧
     (start p).status = TimerStatus.running) ∧
    (∀ st : TimerStoreState, st.isPreparingPhase = false →
      ∀ k : Nat, (Nat.iterate tick k st).isPreparingPhase = false) ∧
    (∀ (st : TimerStoreState) (snap : TickSnapshot) (m : Int),
      st.isPreparingPhase = false → snap.isPreparingPhase = false →
      (syncFromElapsed st snap m).isPreparingPhase = false) := by
  have hb : decide (p.prepareSec > 0) = true := decide_eq_true hp
  refine ⟨⟨?_, ?_, ?_, ?_, ?_⟩, ?_, ?_⟩
  · simp [start, hb]
  · simp [start, hb]
  · simp [start, hb]
  · rfl
  · rfl
  · intro st hs k
    induction k with
    | zero => exact hs
    | succ k ih =>
        rw [Function.iterate_succ_apply']
        exact tick_not_preparing _ ih
  · intro st snap m hst hsnap
    unfold syncFromElapsed
    split_ifs with hm
    · exact hst
    · exact replayLoop_not_preparing st hst _ snap hsnap

/-- Witness for C6 at the regression preset: the prepare occupancy holds
right after `start`, and at tick 13 — the start of round 2 — the prepare
flag is false (3 prepare + 5 + 5 seconds of round 1 have elapsed). -/
theorem prepare_once_per_start_witness :
    (start exC6).isPreparingPhase = true ∧
    (Nat.iterate tick 13 (start exC6)).isPreparingPhase = false ∧
    (Nat.iterate tick 13 (start exC6)).currentRound = 2 := by
  refine ⟨(prepare_once_per_start exC6 (by decide)).1.1, ?_, by decide⟩
  have h := (prepare_once_per_start exC6 (by decide)).2.1
    (Nat.iterate tick 3 (start exC6)) (by decide) 10
  rw [← Function.iterate_add_apply] at h
  exact h

/-! ### Claim C7 -/

/-- C7: per scheduled tick, exactly one of the callbacks fires —
onComplete when the status transitioned into completed, else
onPhaseChange when the phase index changed, else neither; the completion
test is taken first, so both callbacks can never fire on one tick. -/
theorem tick_callback_exclusivity (st : TimerStoreState) :
    (executeTickWithCallbacks st).1 = tick st ∧
    ((executeTickWithCallbacks st).2 = some TickEvent.complete ↔
      ((tick st).status = TimerStatus.completed ∧ st.status ≠ TimerStatus.completed)) ∧
    ((executeTickWithCallbacks st).2 = some TickEvent.phaseChange ↔
      (¬ ((tick st).status = TimerStatus.completed ∧ st.status ≠ TimerStatus.completed) ∧
        (tick st).currentPhaseIndex ≠ st.currentPhaseIndex)) ∧
    ((executeTickWithCallbacks st).2 = none ↔
      (¬ ((tick st).status = TimerStatus.completed ∧ st.status ≠ TimerStatus.completed) ∧
        (tick st).currentPhaseIndex = st.currentPhaseIndex)) := by
  simp only [executeTickWithCallbacks]
  split_ifs with h1 h2 <;> simp_all

/-! ### Claim C8 -/

/-- C8: completion is terminal — on any state whose tick completes the
workout (the pure transition signals completion), the resulting state has
status completed and remainingSec 0, and every further tick leaves the
whole state (hence remainingSec and currentRound) unchanged. -/
theorem completed_terminal (st : TimerStoreState)
    (h : computeNextTickState (snapshotOf st) = none) :
    (tick st).status = TimerStatus.completed ∧
    (tick st).remainingSec = 0 ∧
    ∀ n : Nat, Nat.iterate tick n (tick st) = tick st := by
  have ht : tick st = { st with status := TimerStatus.completed, remainingSec := 0 } := by
    unfold tick
    rw [h]
  obtain ⟨h1, h2, h3, h4⟩ := (computeNext_eq_none_iff _).1 h
  have hnone : computeNextTickState (snapshotOf (tick st)) = none := by
    rw [ht]
    exact (computeNext_eq_none_iff _).2 ⟨by norm_num [snapshotOf], h2, h3, h4⟩
  have hfix : tick (tick st) = tick st := by
    rw [ht] at hnone ⊢
    unfold tick
    rw [hnone]
  refine ⟨by rw [ht], by rw [ht], ?_⟩
  intro n
  induction n with
  | zero => rfl
  | succ n ih => rw [Function.iterate_succ_apply, hfix, ih]

/-- Witness for C8: the concrete state exC8 completes on its next tick and
five further ticks change nothing. -/
theorem completed_terminal_witness :
    (tick exC8).status = TimerStatus.completed ∧
    (tick exC8).remainingSec = 0 ∧
    Nat.iterate tick 5 (tick exC8) = tick exC8 :=
  ⟨(completed_terminal exC8 (by decide)).1,
   (completed_terminal exC8 (by decide)).2.1,
   (completed_terminal exC8 (by decide)).2.2 5⟩

/-! ### Claim C9 -/

/-- C9: `tick` has no status guard — on the idle sentinel INITIAL_STATE it
is not a no-op: it sets status to completed (remainingSec stays 0), while
the guarded mutators updateTotalRounds and updatePhaseDuration leave the
idle sentinel untouched. -/
theorem tick_idle_sentinel_completes :
    tick INITIAL_STATE = { INITIAL_STATE with status := TimerStatus.completed } ∧
    (tick INITIAL_STATE).status = TimerStatus.completed ∧
    (tick INITIAL_STATE).remainingSec = 0 ∧
    tick INITIAL_STATE ≠ INITIAL_STATE ∧
    updateTotalRounds INITIAL_STATE 5 = INITIAL_STATE ∧
    updatePhaseDuration INITIAL_STATE PhaseType.work 30 = INITIAL_STATE := by
  decide

/-! ### Claim C10 -/

/-- C10: replaying a non-positive elapsed time is a complete no-op on the
live state, whatever snapshot is passed. -/
theorem replay_nonpos_noop (st : TimerStoreState) (snap : TickSnapshot)
    (n : Int) (hn : n ≤ 0) : syncFromElapsed st snap n = st := by
  simp [syncFromElapsed, hn]

/-- Witness for C10: zero and negative elapsed times leave the live state
untouched even though the passed snapshot differs from it. -/
theorem replay_nonpos_noop_witness :
    syncFromElapsed exC10st exC10snap 0 = exC10st ∧
    syncFromElapsed exC10st exC10snap (-5) = exC10st ∧
    exC10snap ≠ snapshotOf exC10st :=
  ⟨replay_nonpos_noop exC10st exC10snap 0 (by decide),
   replay_nonpos_noop exC10st exC10snap (-5) (by decide),
   by decide⟩

/-! ### Claim C1 -/

/-- Counterexample to C1 as stated: the claim quantifies over every
snapshot S and every integer n >= 0, but at n = 0 syncFromElapsed hits
the `elapsedSec <= 0` guard and leaves the live state untouched, while
zero applications of the pure tick transition to S yield S itself, which
here differs from the live state — and the completion alternative does
not apply since nothing completed. -/
theorem replay_tick_equiv_counterexample :
    iterTick exC1snap 0 = some exC1snap ∧
    syncFromElapsed exC1st exC1snap 0 = exC1st ∧
    applySnapshot exC1st exC1snap ≠ exC1st ∧
    (syncFromElapsed exC1st exC1snap 0).status ≠ TimerStatus.completed := by
  decide

/-- C1 (amended): for every live state, snapshot with a non-empty phase
list and integer n >= 1 (n <= 0 is a no-op, see claim C10): when the
n-fold pure tick transition from the snapshot succeeds, the live state
becomes exactly that result merged over it — equivalently, n store-level
ticks applied to the live state overwritten with the snapshot; when
completion is signalled within the n steps, the live state keeps all its
fields except status := completed and remainingSec := 0; and the resume
correction fires no onPhaseChange/onComplete callback. -/
theorem replay_tick_equiv_pos (st : TimerStoreState) (snap : TickSnapshot)
    (n : Int) (hn : 1 ≤ n) (_hne : snap.phases ≠ []) :
    (syncFromElapsed st snap n =
      match iterTick snap n.toNat with
      | some s2 => applySnapshot st s2
      | none => { st with status := TimerStatus.completed, remainingSec := 0 }) ∧
    (∀ s2, iterTick snap n.toNat = some s2 →
      syncFromElapsed st snap n = Nat.iterate tick n.toNat (applySnapshot st snap)) ∧
    (resumeCorrection st snap n).2 = none := by
  have hpos : ¬ n ≤ 0 := by omega
  have h1 : syncFromElapsed st snap n = replayLoop st snap n.toNat := by
    simp [syncFromElapsed, hpos]
  refine ⟨?_, ?_, rfl⟩
  · rw [h1, replayLoop_eq_iterTick]
  · intro s2 h2
    rw [h1, replayLoop_eq_iterTick, h2, iterate_tick_applySnapshot st n.toNat snap s2 h2]

/-- Witness for the amended C1 at a concrete running state replayed from
its own snapshot for 4 seconds. -/
theorem replay_tick_equiv_pos_witness :
    syncFromElapsed exC1Wst (snapshotOf exC1Wst) 4 =
      match iterTick (snapshotOf exC1Wst) ((4 : Int)).toNat with
      | some s2 => applySnapshot exC1Wst s2
      | none => { exC1Wst with status := TimerStatus.completed, remainingSec := 0 } :=
  (replay_tick_equiv_pos exC1Wst (snapshotOf exC1Wst) 4 (by decide) (by decide)).1

/-! ### Claim C2 -/

/-- C2: a persisted snapshot that passes validation restores with its
status forced from running to paused and every other field intact; any
snapshot with a non-running status passes through entirely unchanged. -/
theorem restore_running_forced_paused (p : PersistedValue)
    (current d : TimerStoreState) (h : safeParse p = some d) :
    (d.status = TimerStatus.running →
      merge p current = { d with status := TimerStatus.paused }) ∧
    (d.status ≠ TimerStatus.running → merge p current = d) := by
  unfold merge
  rw [h]
  constructor
  · intro h2
    simp [h2]
  · intro h2
    simp [h2]

/-- Witness for C2: a concrete running persisted snapshot restores as
paused, with all other fields taken from the snapshot. -/
theorem restore_running_forced_paused_witness :
    merge exC2p INITIAL_STATE = { toState exC2p with status := TimerStatus.paused } ∧
    (toState exC2p).status = TimerStatus.running ∧
    (merge exC2p INITIAL_STATE).currentRound = 2 :=
  ⟨(restore_running_forced_paused exC2p INITIAL_STATE (toState exC2p) (by decide)).1 (by decide),
   by decide, by decide⟩

/-! ### Claim C3 -/

/-- Counterexample to C3 as stated: `TimerStoreSchema` does not require a
non-empty phase list (`z.array(PhaseSchema)` carries no `.min(1)`), so a
persisted value with `phases: []` and in-range numbers passes validation
and is fully applied instead of being discarded in favor of the
caller-supplied current state. -/
theorem restore_empty_phases_counterexample :
    exC3p.phases = [] ∧
    safeParse exC3p = some (toState exC3p) ∧
    merge exC3p exC3cur ≠ exC3cur ∧
    (merge exC3p exC3cur).totalRounds = 7 := by
  decide

/-- C3 (amended): restore is all-or-nothing over the schema's numeric
range refinements — a value violating them is wholly discarded and the
caller-supplied current state returned with no field of the snapshot
applied, and a passing value is wholly applied (with running forced to
paused) with no field of the current state surviving; but validation does
not require a non-empty phase list, so empty-phases snapshots pass. -/
theorem restore_all_or_nothing (p : PersistedValue) (current : TimerStoreState) :
    (persistedValid p = false → merge p current = current) ∧
    (persistedValid p = true →
      merge p current =
        { toState p with
          status := if p.status = TimerStatus.running then TimerStatus.paused
                    else p.status }) := by
  constructor
  · intro h
    simp [merge, safeParse, h]
  · intro h
    simp [merge, safeParse, h, toState]

/-- Witness for the amended C3: an out-of-range snapshot (negative
remainingSec) is discarded wholly; the empty-phases snapshot passes. -/
theorem restore_all_or_nothing_witness :
    merge exC3bad INITIAL_STATE = INITIAL_STATE ∧
    persistedValid exC3bad = false ∧
    persistedValid exC3p = true :=
  ⟨(restore_all_or_nothing exC3bad INITIAL_STATE).1 (by decide),
   by decide, by decide⟩

/-! ### Claim C4 -/

/-- C4: while running or paused, updatePhaseDuration clamps the requested
duration to [MIN_PHASE_DURATION_SEC, MAX_PHASE_DURATION_SEC] = [5, 300]
and writes it to every phase of the given type, leaving the other type
untouched; when the currently occupied (non-prepare) phase has that type,
the new remainingSec is clamp(old + (new - old duration), 0, new);
otherwise remainingSec is unchanged, as are status, round and position;
outside running/paused the call changes nothing. -/
theorem updatePhaseDuration_spec (st : TimerStoreState) (pt : PhaseType) (nd : Int) :
    (st.status = TimerStatus.running ∨ st.status = TimerStatus.paused →
      (∀ i : Nat, (updatePhaseDuration st pt nd).phases.get? i =
        (st.phases.get? i).map fun p =>
          if p.type = pt then { p with durationSec := clampDuration nd } else p) ∧
      (∀ cp : Phase, st.isPreparingPhase = false →
        listGetI st.phases st.currentPhaseIndex = some cp → cp.type = pt →
        (updatePhaseDuration st pt nd).remainingSec =
          max 0 (min (st.remainingSec + (clampDuration nd - cp.durationSec))
            (clampDuration nd))) ∧
      ((st.isPreparingPhase = true ∨
        ∀ cp : Phase, listGetI st.phases st.currentPhaseIndex = some cp → cp.type ≠ pt) →
        (updatePhaseDuration st pt nd).remainingSec = st.remainingSec) ∧
      (updatePhaseDuration st pt nd).status = st.status ∧
      (updatePhaseDuration st pt nd).currentRound = st.currentRound ∧
      (updatePhaseDuration st pt nd).currentPhaseIndex = st.currentPhaseIndex ∧
      (updatePhaseDuration st pt nd).totalRounds = st.totalRounds ∧
      (updatePhaseDuration st pt nd).isPreparingPhase = st.isPreparingPhase) ∧
    (¬ (st.status = TimerStatus.running ∨ st.status = TimerStatus.paused) →
      updatePhaseDuration st pt nd = st) := by
  constructor
  · intro h
    rw [updatePhaseDuration_active st pt nd h]
    refine ⟨?_, ?_, ?_, rfl, rfl, rfl, rfl, rfl⟩
    · intro i
      exact get?_map_phase _ st.phases i
    · intro cp hprep hget htype
      simp [hprep, hget, htype]
    · intro hcase
      cases hb : st.isPreparingPhase with
      | true => simp [hb]
      | false =>
          rcases hcase with hprep | hnot
          · rw [hb] at hprep
            cases hprep
          · cases hget : listGetI st.phases st.currentPhaseIndex with
            | none => simp [hb, hget]
            | some cp => simp [hb, hget, hnot cp hget]
  · intro h
    have hg : st.status ≠ TimerStatus.running ∧ st.status ≠ TimerStatus.paused := by
      tauto
    simp [updatePhaseDuration, hg]

/-- Witness for C4: lengthening the active work phase from 20 to 30
raises remainingSec from 12 to 22 and rewrites only the work phase. -/
theorem updatePhaseDuration_spec_witness :
    (updatePhaseDuration exC4st PhaseType.work 30).remainingSec =
      max 0 (min (exC4st.remainingSec + (clampDuration 30 - (workPhase 20).durationSec))
        (clampDuration 30)) ∧
    (updatePhaseDuration exC4st PhaseType.work 30).remainingSec = 22 ∧
    (updatePhaseDuration exC4st PhaseType.work 30).phases =
      [workPhase 30, restPhase 10] :=
  ⟨((updatePhaseDuration_spec exC4st PhaseType.work 30).1 (by decide)).2.1
      (workPhase 20) (by decide) (by decide) (by decide),
   by decide, by decide⟩

/-! ### Claim C5 -/

/-- Counterexample to C5 as stated: in a running state whose currentRound
is 150 (reachable, since presets carry no upper bound on totalRounds),
updateTotalRounds 10 yields totalRounds = 150, which is not in
[currentRound, 99] — the upper bound 99 fails. -/
theorem updateTotalRounds_bound_counterexample :
    exC5st.status = TimerStatus.running ∧
    (updateTotalRounds exC5st 10).totalRounds = 150 ∧
    ¬ (updateTotalRounds exC5st 10).totalRounds ≤ 99 := by
  decide

/-- C5 (amended): while running or paused, updateTotalRounds x sets
totalRounds to max(currentRound, min(x, 99)), so the result is at least
currentRound, and at most 99 whenever currentRound <= 99; the call is
idempotent: repeating it with the same x changes nothing further; outside
running/paused it is a no-op on the whole state. -/
theorem updateTotalRounds_clamp_spec (st : TimerStoreState) (x : Int) :
    (st.status = TimerStatus.running ∨ st.status = TimerStatus.paused →
      (updateTotalRounds st x).totalRounds =
        max st.currentRound (min x MAX_TOTAL_ROUNDS) ∧
      st.currentRound ≤ (updateTotalRounds st x).totalRounds ∧
      (st.currentRound ≤ MAX_TOTAL_ROUNDS →
        (updateTotalRounds st x).totalRounds ≤ MAX_TOTAL_ROUNDS) ∧
      updateTotalRounds (updateTotalRounds st x) x = updateTotalRounds st x) ∧
    (¬ (st.status = TimerStatus.running ∨ st.status = TimerStatus.paused) →
      updateTotalRounds st x = st) := by
  constructor
  · intro h
    have hg : ¬ (st.status ≠ TimerStatus.running ∧ st.status ≠ TimerStatus.paused) := by
      tauto
    have h1 : updateTotalRounds st x =
        { st with totalRounds := max st.currentRound (min x MAX_TOTAL_ROUNDS) } := by
      simp [updateTotalRounds, hg]
    refine ⟨by rw [h1], by rw [h1]; exact le_max_left _ _, ?_, ?_⟩
    · intro hcr
      rw [h1]
      exact max_le hcr (min_le_right _ _)
    · rw [h1]
      simp [updateTotalRounds, hg]
  · intro h
    have hg : st.status ≠ TimerStatus.running ∧ st.status ≠ TimerStatus.paused := by
      tauto
    simp [updateTotalRounds, hg]

/-- Witness for the amended C5: at round 3 of a running state, 200 clamps
to 99, 1 clamps up to the current round 3, and repeating the call is
idempotent. -/
theorem updateTotalRounds_clamp_spec_witness :
    (updateTotalRounds exC5Wst 200).totalRounds = 99 ∧
    (updateTotalRounds exC5Wst 1).totalRounds = 3 ∧
    updateTotalRounds (updateTotalRounds exC5Wst 200) 200 =
      updateTotalRounds exC5Wst 200 := by
  refine ⟨?_, ?_, ((updateTotalRounds_clamp_spec exC5Wst 200).1 (by decide)).2.2.2⟩
  · rw [((updateTotalRounds_clamp_spec exC5Wst 200).1 (by decide)).1]
    decide
  · rw [((updateTotalRounds_clamp_spec exC5Wst 1).1 (by decide)).1]
    decide

end IntervalTimer
